import Mathlib

/-!
# Verification of the antivenom_app geospatial ranking core

Shallow embedding of the geospatial nearest-facility ranking engine:
coordinate validation (`isValidCoordinates`, `createCoordinates`),
great-circle distance (`haversineDistance`, `formatDistance`),
the ranking engine (`rankByDistance` and its filter/sort/slice stages),
and the search orchestrator (`getNearestCentros`).

Modelling conventions:
* A JavaScript `number` field that may be `NaN` is modelled as `Option ℚ`,
  with `none` standing for `NaN` (an out-of-range finite value covers the
  same rejection path as an infinity, so `ℚ` suffices for the range checks).
* Transcendental floating-point functions (`Math.sin`, `Math.cos`,
  `Math.asin`, `Math.sqrt`, `Math.PI`) are abstracted into a `MathKernel`
  parameter; every theorem that does not depend on their values is proved
  for all kernels, and the symmetry theorem assumes only that `sin` is odd.
* A thrown JavaScript exception is modelled as `Except.error`; code that
  catches exceptions pattern-matches on the `Except` value.
* `Array.prototype.sort` with comparator `(a, b) => a.distanceKm - b.distanceKm`
  is a stable sort (ES2019) for the total preorder `a.distanceKm ≤ b.distanceKm`;
  every stable sort for that preorder computes the same list, and it is
  embedded as `List.insertionSort`.
* `Array.prototype.slice(0, end)` with a possibly negative `end` index is
  embedded as `jsSliceTo`, and `Math.round` as `jsRound` (floor of x + 1/2).
-/

/-- Abstracted floating-point math library used by the haversine formula. -/
structure MathKernel where
  sin : ℚ → ℚ
  cos : ℚ → ℚ
  asin : ℚ → ℚ
  sqrt : ℚ → ℚ
  pi : ℚ

/-- `Coordinates` from `domain/geo/types.ts`: a `{latitude, longitude}` record
of JavaScript numbers; `none` models a `NaN` component. -/
structure Coordinates where
  latitude : Option ℚ
  longitude : Option ℚ
deriving DecidableEq, Repr

/-- `isValidCoordinates` from `domain/geo/types.ts`: both fields are numbers,
not `NaN`, latitude in [-90, 90] and longitude in [-180, 180]. -/
def isValidCoordinates (c : Coordinates) : Bool :=
  match c.latitude, c.longitude with
  | some lat, some lon =>
      decide (-90 ≤ lat) && decide (lat ≤ 90) &&
      decide (-180 ≤ lon) && decide (lon ≤ 180)
  | _, _ => false

/-- `createCoordinates` from `domain/geo/types.ts`: throws on invalid input,
otherwise returns the pair unchanged. -/
def createCoordinates (latitude longitude : Option ℚ) : Except String Coordinates :=
  let coords : Coordinates := ⟨latitude, longitude⟩
  if !(isValidCoordinates coords) then
    .error "Invalid coordinates: latitude must be -90 to 90, longitude must be -180 to 180."
  else
    .ok coords

/-- `EARTH_RADIUS_KM` from `domain/geo/haversineDistance.ts`. -/
def EARTH_RADIUS_KM : ℚ := 6371

/-- `toRadians` from `domain/geo/haversineDistance.ts`. -/
def toRadians (K : MathKernel) (degrees : ℚ) : ℚ :=
  degrees * (K.pi / 180)

/-- Projection of a validated JavaScript number; only applied after
`isValidCoordinates` has ruled out `NaN`. -/
def qv (x : Option ℚ) : ℚ := x.getD 0

/-- JavaScript strict equality on two numbers (`NaN === x` is false). -/
def jsStrictEqNum (a b : Option ℚ) : Bool :=
  match a, b with
  | some x, some y => x == y
  | _, _ => false

/-- Body of `haversineDistance` after input validation: early return 0 for
identical points, otherwise the haversine formula with radius 6371 km. -/
def haversineRaw (K : MathKernel) (point1 point2 : Coordinates) : ℚ :=
  if jsStrictEqNum point1.latitude point2.latitude &&
     jsStrictEqNum point1.longitude point2.longitude then
    0
  else
    let dLat := toRadians K (qv point2.latitude - qv point1.latitude)
    let dLon := toRadians K (qv point2.longitude - qv point1.longitude)
    let lat1Rad := toRadians K (qv point1.latitude)
    let lat2Rad := toRadians K (qv point2.latitude)
    let a := (K.sin (dLat / 2)) ^ 2 +
      K.cos lat1Rad * K.cos lat2Rad * (K.sin (dLon / 2)) ^ 2
    let c := 2 * K.asin (K.sqrt a)
    EARTH_RADIUS_KM * c

/-- `haversineDistance` from `domain/geo/haversineDistance.ts`: re-validates
both inputs (throwing, modelled as `Except.error`) and then computes. -/
def haversineDistance (K : MathKernel) (point1 point2 : Coordinates) :
    Except String ℚ :=
  if !(isValidCoordinates point1) then
    .error "Invalid origin coordinates"
  else if !(isValidCoordinates point2) then
    .error "Invalid destination coordinates"
  else
    .ok (haversineRaw K point1 point2)

/-- `Math.round`: round half toward positive infinity. -/
def jsRound (x : ℚ) : Int := ⌊x + 1 / 2⌋

/-- `Number.prototype.toFixed(1)` for a nonnegative argument: ECMA-262 picks
the integer `n` with `n / 10` closest to `x`, ties to the larger `n`. -/
def jsToFixed1 (x : ℚ) : String :=
  let n := (jsRound (x * 10)).toNat
  toString (n / 10) ++ "." ++ toString (n % 10)

/-- `formatDistance` from `domain/geo/haversineDistance.ts`. -/
def formatDistance (distanceKm : ℚ) : String :=
  if distanceKm < 0 then
    "0 m"
  else if distanceKm < 1 then
    toString (jsRound (distanceKm * 1000)) ++ " m"
  else if distanceKm < 10 then
    jsToFixed1 distanceKm ++ " km"
  else
    toString (jsRound distanceKm) ++ " km"

/-- `Centro` from `domain/models/Centro.ts`; the coordinate fields are raw
JavaScript numbers (possibly `NaN`, modelled by `none`). -/
structure Centro where
  id : String
  nome : String
  municipio : String
  uf : String
  regiao : Option String := none
  latitude : Option ℚ
  longitude : Option ℚ
  tiposSoro : List String
  endereco : Option String := none
  telefone : Option String := none
  cnes : Option String := none
deriving DecidableEq, Repr

/-- `NearestCentroResult` from `domain/models/NearestResult.ts`. -/
structure NearestCentroResult where
  centro : Centro
  distanceKm : ℚ
  distanceFormatted : String
deriving DecidableEq, Repr

/-- `NearestSearchOptions` from `domain/models/NearestResult.ts`; every field
is optional (`undefined` modelled by `none`). -/
structure NearestSearchOptions where
  limit : Option Int := none
  maxRadiusKm : Option ℚ := none
  tipoSoro : Option String := none
  uf : Option String := none
deriving DecidableEq, Repr

/-- `DEFAULT_SEARCH_OPTIONS.limit` from `domain/models/NearestResult.ts`. -/
def DEFAULT_LIMIT : Int := 5

/-- `calculateCentroDistance` from `domain/geo/rankByDistance.ts`; a throw
from `haversineDistance` propagates. -/
def calculateCentroDistance (K : MathKernel) (centro : Centro)
    (userLocation : Coordinates) : Except String NearestCentroResult :=
  let centroLocation : Coordinates := ⟨centro.latitude, centro.longitude⟩
  match haversineDistance K userLocation centroLocation with
  | .error e => .error e
  | .ok distanceKm => .ok ⟨centro, distanceKm, formatDistance distanceKm⟩

/-- `filterByUf` from `domain/geo/rankByDistance.ts`; JavaScript truthiness:
`!uf` is true both for `undefined` and for the empty string. -/
def filterByUf (results : List NearestCentroResult) (uf : Option String) :
    List NearestCentroResult :=
  match uf with
  | none => results
  | some u => if u = "" then results else results.filter (fun r => r.centro.uf == u)

/-- `filterByTipoSoro` from `domain/geo/rankByDistance.ts`; same truthiness
treatment of the empty string as `filterByUf`. -/
def filterByTipoSoro (results : List NearestCentroResult) (tipoSoro : Option String) :
    List NearestCentroResult :=
  match tipoSoro with
  | none => results
  | some t => if t = "" then results else results.filter (fun r => r.centro.tiposSoro.contains t)

/-- `filterByRadius` from `domain/geo/rankByDistance.ts`; explicit
`=== undefined` check, inclusive boundary. -/
def filterByRadius (results : List NearestCentroResult) (maxRadiusKm : Option ℚ) :
    List NearestCentroResult :=
  match maxRadiusKm with
  | none => results
  | some m => results.filter (fun r => decide (r.distanceKm ≤ m))

/-- The total preorder induced by the comparator
`(a, b) => a.distanceKm - b.distanceKm`. -/
def leDist (a b : NearestCentroResult) : Prop :=
  a.distanceKm ≤ b.distanceKm

instance : DecidableRel leDist :=
  fun a b => inferInstanceAs (Decidable (a.distanceKm ≤ b.distanceKm))

instance : IsTotal NearestCentroResult leDist :=
  ⟨fun a b => le_total a.distanceKm b.distanceKm⟩

instance : IsTrans NearestCentroResult leDist :=
  ⟨fun _ _ _ hab hbc => le_trans hab hbc⟩

/-- `sortByDistance` from `domain/geo/rankByDistance.ts`: a stable sort of a
copy of the array, ascending by `distanceKm`. -/
def sortByDistance (results : List NearestCentroResult) : List NearestCentroResult :=
  List.insertionSort leDist results

/-- `Array.prototype.slice(0, endIdx)`: a negative end index counts from the
end of the array (ECMA-262), clamped at 0. -/
def jsSliceTo {α : Type} (l : List α) (endIdx : Int) : List α :=
  if endIdx < 0 then
    l.take (max ((l.length : Int) + endIdx) 0).toNat
  else
    l.take endIdx.toNat

/-- `centros.map((centro) => calculateCentroDistance(centro, userLocation))`:
the callback runs left to right and the first throw aborts the map. -/
def mapDistances (K : MathKernel) (userLocation : Coordinates) :
    List Centro → Except String (List NearestCentroResult)
  | [] => .ok []
  | c :: cs =>
    match calculateCentroDistance K c userLocation with
    | .error e => .error e
    | .ok r =>
      match mapDistances K userLocation cs with
      | .error e => .error e
      | .ok rs => .ok (r :: rs)

/-- `rankByDistance` from `domain/geo/rankByDistance.ts`: distances, the three
filters, the stable sort, then `slice(0, limit)` with default limit 5. -/
def rankByDistance (K : MathKernel) (centros : List Centro)
    (userLocation : Coordinates) (options : NearestSearchOptions) :
    Except String (List NearestCentroResult) :=
  let limit := options.limit.getD DEFAULT_LIMIT
  match mapDistances K userLocation centros with
  | .error e => .error e
  | .ok results =>
    .ok (jsSliceTo
      (sortByDistance
        (filterByRadius
          (filterByTipoSoro
            (filterByUf results options.uf)
            options.tipoSoro)
          options.maxRadiusKm))
      limit)

/-- `GetNearestCentrosResult` from `application/usecases/getNearestCentros.ts`. -/
inductive GetNearestCentrosResult where
  | success (results : List NearestCentroResult)
  | failure (error : String)
deriving DecidableEq, Repr

/-- Error message of the `InvalidLocation` failure. -/
def invalidLocationMsg : String :=
  "Localização inválida. Não foi possível determinar sua posição."

/-- Error message of the `NoData` failure. -/
def noDataMsg : String :=
  "Nenhum centro de distribuição disponível."

/-- Error message of the `ComputationError` failure. -/
def computationErrorMsg : String :=
  "Erro ao calcular distâncias. Tente novamente."

/-- The TypeError raised when the initial `logger.info` call evaluates
`centros.length` on an absent (null or undefined) collection. -/
def absentCentrosTypeErrorMsg : String :=
  "TypeError: cannot read property length of undefined"

/-- `getNearestCentros` from `application/usecases/getNearestCentros.ts`.
The collection argument is `Option`al because untyped callers may pass
`null`/`undefined` (the source guards `!centros`); in that case the
`logger.info` call at the top of the function evaluates `centros.length`
and throws a TypeError before the guard runs, modelled by the outer
`Except.error`.  All exceptions thrown by the ranking call itself are
caught and mapped to the `ComputationError` failure. -/
def getNearestCentros (K : MathKernel) (centros : Option (List Centro))
    (userLocation : Coordinates) (options : NearestSearchOptions) :
    Except String GetNearestCentrosResult :=
  match centros with
  | none => .error absentCentrosTypeErrorMsg
  | some cs =>
    if !(isValidCoordinates userLocation) then
      .ok (.failure invalidLocationMsg)
    else if cs.length == 0 then
      .ok (.failure noDataMsg)
    else
      match rankByDistance K cs userLocation options with
      | .ok results => .ok (.success results)
      | .error _ => .ok (.failure computationErrorMsg)

/-- The value `calculateCentroDistance` returns when it does not throw. -/
def mkResult (K : MathKernel) (userLocation : Coordinates) (centro : Centro) :
    NearestCentroResult :=
  ⟨centro, haversineRaw K userLocation ⟨centro.latitude, centro.longitude⟩,
    formatDistance (haversineRaw K userLocation ⟨centro.latitude, centro.longitude⟩)⟩

/-- The facility-passing predicate as the source code implements it: string
filters are skipped when absent or empty, the radius bound is inclusive. -/
def passesFilters (K : MathKernel) (userLocation : Coordinates)
    (options : NearestSearchOptions) (c : Centro) : Bool :=
  (match options.uf with
   | none => true
   | some u => decide (u = "") || c.uf == u) &&
  (match options.tipoSoro with
   | none => true
   | some t => decide (t = "") || c.tiposSoro.contains t) &&
  (match options.maxRadiusKm with
   | none => true
   | some m => decide (haversineRaw K userLocation ⟨c.latitude, c.longitude⟩ ≤ m))

/-- The facility-passing predicate as the claim states it: every present
filter is applied, with no special case for the empty string. -/
def claimPasses (K : MathKernel) (userLocation : Coordinates)
    (options : NearestSearchOptions) (c : Centro) : Bool :=
  (match options.uf with
   | none => true
   | some u => c.uf == u) &&
  (match options.tipoSoro with
   | none => true
   | some t => c.tiposSoro.contains t) &&
  (match options.maxRadiusKm with
   | none => true
   | some m => decide (haversineRaw K userLocation ⟨c.latitude, c.longitude⟩ ≤ m))

/-- A degenerate math kernel (all distances collapse); theorems quantified
over every kernel can be witnessed with it. -/
def K0 : MathKernel := ⟨fun x => x, fun _ => 1, fun x => x, fun x => x, 0⟩

/-- A kernel whose `toRadians` is the identity (`pi = 180`), giving distinct
nonzero rational distances for the sample facilities below. -/
def K1 : MathKernel := ⟨fun x => x, fun _ => 1, fun x => x, fun x => x, 180⟩

/-- Sample origin at (0, 0). -/
def loc0 : Coordinates := ⟨some 0, some 0⟩

/-- Sample facility one degree of longitude east of the origin. -/
def centroA : Centro :=
  { id := "A", nome := "Centro A", municipio := "MA", uf := "SP"
    latitude := some 0, longitude := some 1, tiposSoro := ["X"] }

/-- Sample facility two degrees of longitude east of the origin. -/
def centroB : Centro :=
  { id := "B", nome := "Centro B", municipio := "MB", uf := "RJ"
    latitude := some 0, longitude := some 2, tiposSoro := ["Y"] }

/-- Sample facility with an invalid (NaN) latitude. -/
def centroBad : Centro :=
  { id := "C", nome := "Centro C", municipio := "MC", uf := "SP"
    latitude := none, longitude := some 1, tiposSoro := ["X"] }

/-! ## Helper lemmas -/

lemma isValidCoordinates_iff (lat lon : Option ℚ) :
    isValidCoordinates ⟨lat, lon⟩ = true ↔
      ∃ la lo, lat = some la ∧ lon = some lo ∧
        -90 ≤ la ∧ la ≤ 90 ∧ -180 ≤ lo ∧ lo ≤ 180 := by
  cases lat with
  | none => simp [isValidCoordinates]
  | some la =>
    cases lon with
    | none => simp [isValidCoordinates]
    | some lo =>
      simp only [isValidCoordinates, Bool.and_eq_true, decide_eq_true_eq]
      constructor
      · rintro ⟨⟨⟨h1, h2⟩, h3⟩, h4⟩
        exact ⟨la, lo, rfl, rfl, h1, h2, h3, h4⟩
      · rintro ⟨la', lo', hla, hlo, h1, h2, h3, h4⟩
        cases hla; cases hlo
        exact ⟨⟨⟨h1, h2⟩, h3⟩, h4⟩

@[simp] lemma mkResult_centro (K : MathKernel) (loc : Coordinates) (c : Centro) :
    (mkResult K loc c).centro = c := rfl

@[simp] lemma mkResult_distanceKm (K : MathKernel) (loc : Coordinates) (c : Centro) :
    (mkResult K loc c).distanceKm = haversineRaw K loc ⟨c.latitude, c.longitude⟩ := rfl

lemma haversineDistance_ok (K : MathKernel) {p1 p2 : Coordinates}
    (h1 : isValidCoordinates p1 = true) (h2 : isValidCoordinates p2 = true) :
    haversineDistance K p1 p2 = .ok (haversineRaw K p1 p2) := by
  simp [haversineDistance, h1, h2]

lemma calculateCentroDistance_ok (K : MathKernel) {c : Centro} {loc : Coordinates}
    (h1 : isValidCoordinates loc = true)
    (h2 : isValidCoordinates ⟨c.latitude, c.longitude⟩ = true) :
    calculateCentroDistance K c loc = .ok (mkResult K loc c) := by
  simp [calculateCentroDistance, haversineDistance_ok K h1 h2, mkResult]

lemma calculateCentroDistance_ok_inv {K : MathKernel} {c : Centro} {loc : Coordinates}
    {r : NearestCentroResult} (h : calculateCentroDistance K c loc = .ok r) :
    isValidCoordinates loc = true ∧
    isValidCoordinates ⟨c.latitude, c.longitude⟩ = true ∧
    r = mkResult K loc c := by
  by_cases h1 : isValidCoordinates loc = true
  · by_cases h2 : isValidCoordinates ⟨c.latitude, c.longitude⟩ = true
    · refine ⟨h1, h2, ?_⟩
      rw [calculateCentroDistance_ok K h1 h2] at h
      exact (Except.ok.inj h).symm
    · exfalso
      rw [Bool.not_eq_true] at h2
      simp [calculateCentroDistance, haversineDistance, h1, h2] at h
  · exfalso
    rw [Bool.not_eq_true] at h1
    simp [calculateCentroDistance, haversineDistance, h1] at h

lemma mapDistances_ok_iff {K : MathKernel} {loc : Coordinates} {cs : List Centro}
    {l : List NearestCentroResult} :
    mapDistances K loc cs = .ok l ↔
      List.Forall₂ (fun c r => calculateCentroDistance K c loc = .ok r) cs l := by
  induction cs generalizing l with
  | nil =>
    cases l <;> simp [mapDistances]
  | cons c cs ih =>
    cases hc : calculateCentroDistance K c loc with
    | error e =>
      simp only [mapDistances, hc]
      constructor
      · intro h; cases h
      · intro h
        cases l with
        | nil => cases h
        | cons r l =>
          rw [List.forall₂_cons] at h
          rw [h.1] at hc
          cases hc
    | ok r =>
      cases hm : mapDistances K loc cs with
      | error e =>
        simp only [mapDistances, hc, hm]
        constructor
        · intro h; cases h
        · intro h
          cases l with
          | nil => cases h
          | cons r' l =>
            rw [List.forall₂_cons] at h
            exact absurd (ih.mpr h.2) (by rw [hm]; intro h'; cases h')
      | ok rs =>
        simp only [mapDistances, hc, hm]
        cases l with
        | nil =>
          simp only [List.forall₂_nil_right_iff]
          constructor
          · intro h; cases h
          · intro h; cases h
        | cons r' l =>
          rw [List.forall₂_cons]
          constructor
          · intro h
            cases h
            exact ⟨hc, ih.mp hm⟩
          · rintro ⟨h1, h2⟩
            rw [hc] at h1
            cases h1
            rw [ih.mpr h2] at hm
            cases hm
            rfl

lemma mapDistances_ok_of_valid (K : MathKernel) {loc : Coordinates} {cs : List Centro}
    (hloc : isValidCoordinates loc = true)
    (hcs : ∀ c ∈ cs, isValidCoordinates ⟨c.latitude, c.longitude⟩ = true) :
    mapDistances K loc cs = .ok (cs.map (mkResult K loc)) := by
  rw [mapDistances_ok_iff]
  induction cs with
  | nil => exact List.Forall₂.nil
  | cons c cs ih =>
    exact List.Forall₂.cons
      (calculateCentroDistance_ok K hloc (hcs c (List.mem_cons_self c cs)))
      (ih (fun c' hc' => hcs c' (List.mem_cons_of_mem c hc')))

lemma mapDistances_ok_eq {K : MathKernel} {loc : Coordinates} {cs : List Centro}
    {l : List NearestCentroResult} (h : mapDistances K loc cs = .ok l) :
    l = cs.map (mkResult K loc) := by
  rw [mapDistances_ok_iff] at h
  induction h with
  | nil => rfl
  | cons hr _ ih =>
    rw [List.map_cons, ← ih, (calculateCentroDistance_ok_inv hr).2.2]

lemma mapDistances_valid_of_ok {K : MathKernel} {loc : Coordinates} {cs : List Centro}
    {l : List NearestCentroResult} (h : mapDistances K loc cs = .ok l) :
    ∀ c ∈ cs, isValidCoordinates ⟨c.latitude, c.longitude⟩ = true := by
  rw [mapDistances_ok_iff] at h
  induction h with
  | nil => intro c hc; cases hc
  | cons hr _ ih =>
    intro c hc
    rcases List.mem_cons.mp hc with rfl | hc'
    · exact (calculateCentroDistance_ok_inv hr).2.1
    · exact ih c hc'

/-- The boolean test `filterByUf` applies to one result. -/
def ufPred (uf : Option String) (r : NearestCentroResult) : Bool :=
  match uf with
  | none => true
  | some u => decide (u = "") || r.centro.uf == u

/-- The boolean test `filterByTipoSoro` applies to one result. -/
def tipoPred (tipoSoro : Option String) (r : NearestCentroResult) : Bool :=
  match tipoSoro with
  | none => true
  | some t => decide (t = "") || r.centro.tiposSoro.contains t

/-- The boolean test `filterByRadius` applies to one result. -/
def radPred (maxRadiusKm : Option ℚ) (r : NearestCentroResult) : Bool :=
  match maxRadiusKm with
  | none => true
  | some m => decide (r.distanceKm ≤ m)

/-- The combined filter predicate of the three pipeline stages. -/
def resultPasses (options : NearestSearchOptions) (r : NearestCentroResult) : Bool :=
  ufPred options.uf r && tipoPred options.tipoSoro r && radPred options.maxRadiusKm r

lemma filterByUf_eq (rs : List NearestCentroResult) (uf : Option String) :
    filterByUf rs uf = rs.filter (ufPred uf) := by
  cases uf with
  | none =>
    exact ((@List.filter_congr _ (ufPred none) (fun _ => true) rs
      (fun r _ => rfl)).trans (List.filter_true rs)).symm
  | some u =>
    by_cases hu : u = ""
    · subst hu
      simp only [filterByUf, if_pos rfl]
      exact ((@List.filter_congr _ (ufPred (some "")) (fun _ => true) rs
        (fun r _ => rfl)).trans (List.filter_true rs)).symm
    · simp only [filterByUf, if_neg hu]
      exact @List.filter_congr _ _ _ rs (fun r _ => by simp [ufPred, hu])

lemma filterByTipoSoro_eq (rs : List NearestCentroResult) (tipoSoro : Option String) :
    filterByTipoSoro rs tipoSoro = rs.filter (tipoPred tipoSoro) := by
  cases tipoSoro with
  | none =>
    exact ((@List.filter_congr _ (tipoPred none) (fun _ => true) rs
      (fun r _ => rfl)).trans (List.filter_true rs)).symm
  | some t =>
    by_cases ht : t = ""
    · subst ht
      simp only [filterByTipoSoro, if_pos rfl]
      exact ((@List.filter_congr _ (tipoPred (some "")) (fun _ => true) rs
        (fun r _ => rfl)).trans (List.filter_true rs)).symm
    · simp only [filterByTipoSoro, if_neg ht]
      exact @List.filter_congr _ _ _ rs (fun r _ => by simp [tipoPred, ht])

lemma filterByRadius_eq (rs : List NearestCentroResult) (maxRadiusKm : Option ℚ) :
    filterByRadius rs maxRadiusKm = rs.filter (radPred maxRadiusKm) := by
  cases maxRadiusKm with
  | none =>
    exact ((@List.filter_congr _ (radPred none) (fun _ => true) rs
      (fun r _ => rfl)).trans (List.filter_true rs)).symm
  | some m => rfl

lemma applyFilters_eq (options : NearestSearchOptions) (rs : List NearestCentroResult) :
    filterByRadius (filterByTipoSoro (filterByUf rs options.uf) options.tipoSoro)
      options.maxRadiusKm = rs.filter (resultPasses options) := by
  rw [filterByUf_eq, filterByTipoSoro_eq, filterByRadius_eq,
    List.filter_filter, List.filter_filter]
  refine List.filter_congr ?_
  intro r _
  simp only [resultPasses]
  cases ufPred options.uf r <;> cases tipoPred options.tipoSoro r <;>
    cases radPred options.maxRadiusKm r <;> rfl

lemma resultPasses_mkResult (K : MathKernel) (loc : Coordinates)
    (options : NearestSearchOptions) (c : Centro) :
    resultPasses options (mkResult K loc c) = passesFilters K loc options c := by
  simp only [resultPasses, passesFilters, ufPred, tipoPred, radPred,
    mkResult_centro, mkResult_distanceKm]

lemma sortByDistance_perm (rs : List NearestCentroResult) :
    (sortByDistance rs).Perm rs :=
  List.perm_insertionSort leDist rs

lemma sortByDistance_sorted (rs : List NearestCentroResult) :
    List.Sorted leDist (sortByDistance rs) :=
  List.sorted_insertionSort leDist rs

lemma length_sortByDistance (rs : List NearestCentroResult) :
    (sortByDistance rs).length = rs.length :=
  List.length_insertionSort leDist rs

/-- Stability of the embedded sort: a filter that only keeps mutually
`leDist`-related elements commutes with sorting. -/
lemma sortByDistance_filter_const {rs : List NearestCentroResult}
    {p : NearestCentroResult → Bool}
    (hp : ∀ a, p a = true → ∀ b, p b = true → leDist a b) :
    (sortByDistance rs).filter p = rs.filter p := by
  have hpair : (rs.filter p).Pairwise leDist :=
    List.pairwise_of_forall_mem_list (fun a ha b hb =>
      hp a (List.of_mem_filter ha) b (List.of_mem_filter hb))
  have hA : (rs.filter p).Sublist (List.insertionSort leDist rs) :=
    List.sublist_insertionSort hpair (List.filter_sublist rs)
  have hAB : (rs.filter p).Sublist ((List.insertionSort leDist rs).filter p) := by
    have h2 := List.Sublist.filter p hA
    rwa [List.filter_filter, List.filter_congr (fun a _ => Bool.and_self (p a))] at h2
  have hperm : ((List.insertionSort leDist rs).filter p).Perm (rs.filter p) :=
    (List.perm_insertionSort leDist rs).filter p
  exact (hAB.eq_of_length hperm.length_eq.symm).symm

lemma jsSliceTo_of_nonneg {α : Type} {e : Int} (h : 0 ≤ e) (l : List α) :
    jsSliceTo l e = l.take e.toNat := by
  simp [jsSliceTo, not_lt.mpr h]

lemma jsSliceTo_sublist {α : Type} (l : List α) (e : Int) :
    (jsSliceTo l e).Sublist l := by
  unfold jsSliceTo
  split <;> exact List.take_sublist _ _

lemma length_jsSliceTo_of_nonneg {α : Type} {e : Int} (h : 0 ≤ e) (l : List α) :
    (jsSliceTo l e).length = min e.toNat l.length := by
  rw [jsSliceTo_of_nonneg h, List.length_take]

/-- When the distance map succeeds, `rankByDistance` is the slice of the
stable sort of the filtered candidate list. -/
lemma rankByDistance_ok_inv {K : MathKernel} {cs : List Centro} {loc : Coordinates}
    {opts : NearestSearchOptions} {rs : List NearestCentroResult}
    (h : rankByDistance K cs loc opts = .ok rs) :
    mapDistances K loc cs = .ok (cs.map (mkResult K loc)) ∧
    rs = jsSliceTo
      (sortByDistance ((cs.map (mkResult K loc)).filter (resultPasses opts)))
      (opts.limit.getD DEFAULT_LIMIT) := by
  cases hm : mapDistances K loc cs with
  | error e =>
    simp only [rankByDistance, hm] at h
    exact Except.noConfusion h
  | ok l =>
    have hl := mapDistances_ok_eq hm
    subst hl
    simp only [rankByDistance, hm, applyFilters_eq, Except.ok.injEq] at h
    exact ⟨rfl, h.symm⟩

lemma rankByDistance_ok_of_valid (K : MathKernel) {cs : List Centro} {loc : Coordinates}
    (opts : NearestSearchOptions) (hloc : isValidCoordinates loc = true)
    (hcs : ∀ c ∈ cs, isValidCoordinates ⟨c.latitude, c.longitude⟩ = true) :
    rankByDistance K cs loc opts = .ok (jsSliceTo
      (sortByDistance ((cs.map (mkResult K loc)).filter (resultPasses opts)))
      (opts.limit.getD DEFAULT_LIMIT)) := by
  simp only [rankByDistance, mapDistances_ok_of_valid K hloc hcs, applyFilters_eq]

lemma mapDistances_calc_of_ok {K : MathKernel} {loc : Coordinates} {cs : List Centro}
    {l : List NearestCentroResult} (h : mapDistances K loc cs = .ok l) :
    ∀ c ∈ cs, calculateCentroDistance K c loc = .ok (mkResult K loc c) := by
  rw [mapDistances_ok_iff] at h
  induction h with
  | nil => intro c hc; cases hc
  | cons hr _ ih =>
    intro c hc
    rcases List.mem_cons.mp hc with rfl | hc'
    · exact (calculateCentroDistance_ok_inv hr).2.2 ▸ hr
    · exact ih c hc'

lemma pair_get_sublist {α : Type} :
    ∀ (l : List α) (i j : ℕ) (hi : i < l.length) (hj : j < l.length), i < j →
      ([l.get ⟨i, hi⟩, l.get ⟨j, hj⟩] : List α).Sublist l := by
  intro l
  induction l with
  | nil => intro i j hi _ _; cases hi
  | cons x xs ih =>
    intro i j hi hj hij
    cases i with
    | zero =>
      cases j with
      | zero => cases hij
      | succ j' =>
        exact List.Sublist.cons₂ x
          (List.singleton_sublist.mpr (xs.get_mem _ _))
    | succ i' =>
      cases j with
      | zero => cases hij
      | succ j' =>
        exact List.Sublist.cons x
          (ih i' j' (Nat.lt_of_succ_lt_succ hi) (Nat.lt_of_succ_lt_succ hj)
            (Nat.lt_of_succ_lt_succ hij))

lemma jsStrictEqNum_symm (a b : Option ℚ) :
    jsStrictEqNum a b = jsStrictEqNum b a := by
  cases a <;> cases b <;> simp [jsStrictEqNum]
  exact ⟨fun h => h.symm, fun h => h.symm⟩

lemma haversineRaw_symm (K : MathKernel)
    (hodd : ∀ x : ℚ, K.sin (-x) = -(K.sin x)) (a b : Coordinates) :
    haversineRaw K a b = haversineRaw K b a := by
  have hsin : ∀ x y : ℚ, K.sin (toRadians K (x - y) / 2) ^ 2 =
      K.sin (toRadians K (y - x) / 2) ^ 2 := by
    intro x y
    have hneg : toRadians K (x - y) / 2 = -(toRadians K (y - x) / 2) := by
      unfold toRadians; ring
    rw [hneg, hodd]; ring
  simp only [haversineRaw, jsStrictEqNum_symm b.latitude a.latitude,
    jsStrictEqNum_symm b.longitude a.longitude]
  by_cases hcond : (jsStrictEqNum a.latitude b.latitude &&
      jsStrictEqNum a.longitude b.longitude) = true
  · rw [if_pos hcond, if_pos hcond]
  · rw [if_neg hcond, if_neg hcond]
    rw [hsin (qv b.latitude) (qv a.latitude), hsin (qv b.longitude) (qv a.longitude),
      mul_comm (K.cos (toRadians K (qv a.latitude))) (K.cos (toRadians K (qv b.latitude)))]

/-! ## Claim theorems -/

/-- C5: `isValidCoordinates` accepts exactly the coordinate records whose two
components are numbers (not NaN) with latitude in the closed interval
[-90, 90] and longitude in [-180, 180]; `createCoordinates` fails exactly
when that validation is false and otherwise returns the pair unchanged. -/
theorem c5_coordinate_validation (lat lon : Option ℚ) :
    (isValidCoordinates ⟨lat, lon⟩ = true ↔
      ∃ la lo, lat = some la ∧ lon = some lo ∧
        -90 ≤ la ∧ la ≤ 90 ∧ -180 ≤ lo ∧ lo ≤ 180) ∧
    (isValidCoordinates ⟨lat, lon⟩ = true →
      createCoordinates lat lon = .ok ⟨lat, lon⟩) ∧
    (isValidCoordinates ⟨lat, lon⟩ = false →
      ∃ e, createCoordinates lat lon = .error e) := by
  refine ⟨isValidCoordinates_iff lat lon, fun h => ?_, fun h => ?_⟩
  · simp [createCoordinates, h]
  · exact ⟨"Invalid coordinates: latitude must be -90 to 90, longitude must be -180 to 180.",
      by simp [createCoordinates, h]⟩

/-- Witness for C5: the boundary values lat=±90, long=±180 are accepted (and
the factory returns them unchanged), while lat=90.0001, long=-180.0001 and a
NaN component are rejected. -/
theorem c5_witness :
    createCoordinates (some 90) (some 180) = .ok ⟨some 90, some 180⟩ ∧
    isValidCoordinates ⟨some (-90), some (-180)⟩ = true ∧
    isValidCoordinates ⟨some (900001 / 10000), some 0⟩ = false ∧
    isValidCoordinates ⟨some 0, some (-(1800001 / 10000))⟩ = false ∧
    isValidCoordinates ⟨none, some 0⟩ = false := by
  refine ⟨(c5_coordinate_validation (some 90) (some 180)).2.1 (by decide),
    by decide, ?_, ?_, by decide⟩
  · rw [Bool.eq_false_iff]
    intro htrue
    obtain ⟨la, lo, hla, hlo, h1, h2, h3, h4⟩ :=
      (c5_coordinate_validation (some (900001 / 10000)) (some 0)).1.mp htrue
    rw [← Option.some.inj hla] at h2
    norm_num at h2
  · rw [Bool.eq_false_iff]
    intro htrue
    obtain ⟨la, lo, hla, hlo, h1, h2, h3, h4⟩ :=
      (c5_coordinate_validation (some 0) (some (-(1800001 / 10000)))).1.mp htrue
    rw [← Option.some.inj hlo] at h3
    norm_num at h3

/-- C7: for every valid coordinate `p` and every math kernel, the distance
from `p` to itself is exactly 0 (the identical-point special case fires
before any trigonometric computation). -/
theorem c7_distance_identity (K : MathKernel) (p : Coordinates)
    (h : isValidCoordinates p = true) :
    haversineDistance K p p = .ok 0 := by
  rw [haversineDistance_ok K h h]
  obtain ⟨la, lo, hla, hlo, -⟩ :=
    (isValidCoordinates_iff p.latitude p.longitude).mp h
  simp [haversineRaw, jsStrictEqNum, hla, hlo]

/-- Witness for C7 at the origin coordinate. -/
theorem c7_witness : haversineDistance K0 loc0 loc0 = .ok 0 :=
  c7_distance_identity K0 loc0 (by decide)

/-- C8: for all valid coordinates `a`, `b`, the haversine distance is
symmetric, for every math kernel whose `sin` is odd (true of the IEEE
`Math.sin`; the rest of the formula is symmetric by construction). -/
theorem c8_distance_symmetry (K : MathKernel)
    (hodd : ∀ x : ℚ, K.sin (-x) = -(K.sin x)) (a b : Coordinates)
    (ha : isValidCoordinates a = true) (hb : isValidCoordinates b = true) :
    haversineDistance K a b = haversineDistance K b a := by
  rw [haversineDistance_ok K ha hb, haversineDistance_ok K hb ha,
    haversineRaw_symm K hodd a b]

/-- Witness for C8 at two distinct concrete coordinates. -/
theorem c8_witness :
    haversineDistance K1 loc0 ⟨some 0, some 1⟩ =
      haversineDistance K1 ⟨some 0, some 1⟩ loc0 :=
  c8_distance_symmetry K1 (fun _ => rfl) loc0 ⟨some 0, some 1⟩
    (by decide) (by decide)

/-- C6: `formatDistance` is total and obeys the four display bands: negative
input renders as "0 m"; input below 1 km renders in whole meters (nearest
integer); input in [1, 10) km renders with one decimal; input at or above
10 km renders in whole kilometers; `jsRound` is nearest-integer rounding. -/
theorem c6_formatDistance_bands (d : ℚ) :
    (d < 0 → formatDistance d = "0 m") ∧
    (0 ≤ d → d < 1 → formatDistance d = toString (jsRound (d * 1000)) ++ " m") ∧
    (1 ≤ d → d < 10 → formatDistance d = jsToFixed1 d ++ " km") ∧
    (10 ≤ d → formatDistance d = toString (jsRound d) ++ " km") ∧
    (d - 1 / 2 < (jsRound d : ℚ) ∧ (jsRound d : ℚ) ≤ d + 1 / 2) := by
  refine ⟨?_, ?_, ?_, ?_, ?_, ?_⟩
  · intro h; rw [formatDistance, if_pos h]
  · intro h0 h1
    rw [formatDistance, if_neg (not_lt.mpr h0), if_pos h1]
  · intro h1 h10
    have h0 : ¬d < 0 := not_lt.mpr (le_trans (by norm_num) h1)
    rw [formatDistance, if_neg h0, if_neg (not_lt.mpr h1), if_pos h10]
  · intro h10
    have h0 : ¬d < 0 := not_lt.mpr (le_trans (by norm_num) h10)
    have h1 : ¬d < 1 := not_lt.mpr (le_trans (by norm_num) h10)
    rw [formatDistance, if_neg h0, if_neg h1, if_neg (not_lt.mpr h10)]
  · have h := Int.lt_floor_add_one (d + 1 / 2)
    rw [jsRound]
    push_cast at h
    linarith
  · have h := Int.floor_le (d + 1 / 2)
    rw [jsRound]
    exact h

/-- Witness for C6: the spec's four concrete format examples. -/
theorem c6_witness :
    formatDistance (1 / 2) = "500 m" ∧ formatDistance (23 / 4) = "5.8 km" ∧
    formatDistance 150 = "150 km" ∧ formatDistance (-1) = "0 m" := by
  refine ⟨?_, ?_, ?_, (c6_formatDistance_bands (-1)).1 (by norm_num)⟩
  · rw [(c6_formatDistance_bands (1 / 2)).2.1 (by norm_num) (by norm_num)]
    have h : jsRound ((1 : ℚ) / 2 * 1000) = 500 := by rw [jsRound]; norm_num
    rw [h]; rfl
  · rw [(c6_formatDistance_bands (23 / 4)).2.2.1 (by norm_num) (by norm_num)]
    have h : jsRound ((23 : ℚ) / 4 * 10) = 58 := by rw [jsRound]; norm_num
    simp only [jsToFixed1, h]
    rfl
  · rw [(c6_formatDistance_bands 150).2.2.2.1 (by norm_num)]
    have h : jsRound (150 : ℚ) = 150 := by rw [jsRound]; norm_num
    rw [h]; rfl

/-- Ranked result for `centroA` from `loc0` under kernel `K1`. -/
def resA : NearestCentroResult := ⟨centroA, 6371 / 2, "3186 km"⟩

/-- Ranked result for `centroB` from `loc0` under kernel `K1`. -/
def resB : NearestCentroResult := ⟨centroB, 12742, "12742 km"⟩

lemma rank_eval_BA :
    rankByDistance K1 [centroB, centroA] loc0 ⟨none, none, none, none⟩ =
      .ok [resA, resB] := by
  simp only [rankByDistance, mapDistances, calculateCentroDistance, haversineDistance,
    haversineRaw, isValidCoordinates, jsStrictEqNum, qv, toRadians, sortByDistance,
    filterByUf, filterByTipoSoro, filterByRadius, jsSliceTo, formatDistance, jsRound,
    jsToFixed1, K1, loc0, centroA, centroB, DEFAULT_LIMIT, EARTH_RADIUS_KM,
    List.insertionSort, List.orderedInsert, Option.getD, resA, resB,
    List.take, Int.toNat_ofNat]
  norm_num [leDist]
  all_goals rfl

lemma rank_eval_emptyUf :
    rankByDistance K1 [centroA] loc0 ⟨none, none, none, some ""⟩ = .ok [resA] := by
  simp only [rankByDistance, mapDistances, calculateCentroDistance, haversineDistance,
    haversineRaw, isValidCoordinates, jsStrictEqNum, qv, toRadians, sortByDistance,
    filterByUf, filterByTipoSoro, filterByRadius, jsSliceTo, formatDistance, jsRound,
    jsToFixed1, K1, loc0, centroA, DEFAULT_LIMIT, EARTH_RADIUS_KM,
    List.insertionSort, List.orderedInsert, Option.getD, resA,
    List.take, Int.toNat_ofNat]
  norm_num [leDist]
  all_goals rfl

lemma rank_eval_ufSP :
    rankByDistance K1 [centroA, centroB] loc0 ⟨none, none, none, some "SP"⟩ =
      .ok [resA] := by
  simp only [rankByDistance, mapDistances, calculateCentroDistance, haversineDistance,
    haversineRaw, isValidCoordinates, jsStrictEqNum, qv, toRadians, sortByDistance,
    filterByUf, filterByTipoSoro, filterByRadius, jsSliceTo, formatDistance, jsRound,
    jsToFixed1, K1, loc0, centroA, centroB, DEFAULT_LIMIT, EARTH_RADIUS_KM,
    List.insertionSort, List.orderedInsert, Option.getD, resA,
    List.take, Int.toNat_ofNat]
  norm_num [leDist]
  all_goals rfl

lemma rank_eval_negLimit :
    rankByDistance K1 [centroA, centroB] loc0 ⟨some (-1), none, none, none⟩ =
      .ok [resA] := by
  simp only [rankByDistance, mapDistances, calculateCentroDistance, haversineDistance,
    haversineRaw, isValidCoordinates, jsStrictEqNum, qv, toRadians, sortByDistance,
    filterByUf, filterByTipoSoro, filterByRadius, jsSliceTo, formatDistance, jsRound,
    jsToFixed1, K1, loc0, centroA, centroB, DEFAULT_LIMIT, EARTH_RADIUS_KM,
    List.insertionSort, List.orderedInsert, Option.getD, resA,
    List.take, Int.toNat_ofNat]
  norm_num [leDist]
  all_goals rfl

/-- C2: every result sequence produced by `rankByDistance` is sorted
ascending by `distanceKm` (adjacent pairs are ordered, nearest first). -/
theorem c2_results_sorted (K : MathKernel) (centros : List Centro)
    (loc : Coordinates) (opts : NearestSearchOptions)
    (rs : List NearestCentroResult)
    (h : rankByDistance K centros loc opts = .ok rs)
    (i : ℕ) (hi : i + 1 < rs.length) :
    (rs.get ⟨i, Nat.lt_of_succ_lt hi⟩).distanceKm ≤
      (rs.get ⟨i + 1, hi⟩).distanceKm := by
  obtain ⟨-, hrs⟩ := rankByDistance_ok_inv h
  subst hrs
  have hsorted : List.Sorted leDist (jsSliceTo
      (sortByDistance ((centros.map (mkResult K loc)).filter (resultPasses opts)))
      (opts.limit.getD DEFAULT_LIMIT)) :=
    List.Pairwise.sublist (jsSliceTo_sublist _ _) (sortByDistance_sorted _)
  exact hsorted.rel_get_of_lt (Fin.mk_lt_mk.mpr (Nat.lt_succ_self i))

/-- Witness for C2: with the input out of order, the two returned results
are in ascending distance order. -/
theorem c2_witness :
    rankByDistance K1 [centroB, centroA] loc0 ⟨none, none, none, none⟩ =
      .ok [resA, resB] ∧
    (([resA, resB] : List NearestCentroResult).get ⟨0, by decide⟩).distanceKm ≤
      (([resA, resB] : List NearestCentroResult).get ⟨1, by decide⟩).distanceKm :=
  ⟨rank_eval_BA,
    c2_results_sorted K1 [centroB, centroA] loc0 ⟨none, none, none, none⟩
      [resA, resB] rank_eval_BA 0 (by decide)⟩

/-- Counterexample to C3 as stated: with `regionCode` present but equal to
the empty string, the code skips the filter (JavaScript truthiness), so the
result count is 1 while the claim predicts min(limit, 0) = 0. -/
theorem c3_counterexample :
    ¬(∀ (K : MathKernel) (centros : List Centro) (loc : Coordinates)
        (opts : NearestSearchOptions) (rs : List NearestCentroResult),
        rankByDistance K centros loc opts = .ok rs →
        0 < opts.limit.getD DEFAULT_LIMIT →
        rs.length = min (opts.limit.getD DEFAULT_LIMIT).toNat
          (centros.countP (claimPasses K loc opts))) := by
  intro hclaim
  have h := hclaim K1 [centroA] loc0 ⟨none, none, none, some ""⟩ [resA]
    rank_eval_emptyUf (by norm_num [DEFAULT_LIMIT])
  have hcount : [centroA].countP (claimPasses K1 loc0 ⟨none, none, none, some ""⟩) = 0 := by
    decide
  rw [hcount] at h
  norm_num [DEFAULT_LIMIT] at h

/-- C3 (amended): for a positive limit (5 when absent), the number of results
equals min(limit, count of facilities passing the active filters), where a
present-but-empty-string `regionCode` or `category` filter is skipped (the
code treats the empty string like an absent filter), and the radius bound is
inclusive. -/
theorem c3_limit_and_filters (K : MathKernel) (centros : List Centro)
    (loc : Coordinates) (opts : NearestSearchOptions)
    (rs : List NearestCentroResult)
    (h : rankByDistance K centros loc opts = .ok rs)
    (hpos : 0 < opts.limit.getD DEFAULT_LIMIT) :
    rs.length = min (opts.limit.getD DEFAULT_LIMIT).toNat
      (centros.countP (passesFilters K loc opts)) := by
  obtain ⟨-, hrs⟩ := rankByDistance_ok_inv h
  subst hrs
  rw [length_jsSliceTo_of_nonneg (le_of_lt hpos), length_sortByDistance,
    ← List.countP_eq_length_filter, List.countP_map]
  congr 1

/-- Witness for C3 (amended): a present, non-empty `regionCode` filter keeps
exactly the one matching facility of two. -/
theorem c3_witness :
    rankByDistance K1 [centroA, centroB] loc0 ⟨none, none, none, some "SP"⟩ =
      .ok [resA] ∧
    0 < (⟨none, none, none, some "SP"⟩ : NearestSearchOptions).limit.getD DEFAULT_LIMIT ∧
    ([resA] : List NearestCentroResult).length =
      min ((⟨none, none, none, some "SP"⟩ : NearestSearchOptions).limit.getD
          DEFAULT_LIMIT).toNat
        ([centroA, centroB].countP
          (passesFilters K1 loc0 ⟨none, none, none, some "SP"⟩)) :=
  ⟨rank_eval_ufSP, by norm_num [DEFAULT_LIMIT],
    c3_limit_and_filters K1 [centroA, centroB] loc0 ⟨none, none, none, some "SP"⟩
      [resA] rank_eval_ufSP (by norm_num [DEFAULT_LIMIT])⟩

/-- Counterexample to C4 as stated: with limit = -1 and two facilities, the
code returns one result (JavaScript `slice(0, -1)` keeps all but the last),
not the empty sequence the claim predicts for a non-positive limit. -/
theorem c4_counterexample :
    ¬(∀ (K : MathKernel) (centros : List Centro) (loc : Coordinates)
        (opts : NearestSearchOptions) (rs : List NearestCentroResult),
        rankByDistance K centros loc opts = .ok rs →
        opts.limit.getD DEFAULT_LIMIT ≤ 0 → rs = []) := by
  intro hclaim
  have h := hclaim K1 [centroA, centroB] loc0 ⟨some (-1), none, none, none⟩ [resA]
    rank_eval_negLimit (by norm_num [Option.getD])
  exact List.noConfusion h

/-- C4 (amended): a limit of exactly 0 yields the empty sequence; a negative
limit behaves like a negative `slice` end index, returning all but the last
|limit| filtered results (so the length is max(passCount + limit, 0), not 0). -/
theorem c4_zero_and_negative_limit (K : MathKernel) (centros : List Centro)
    (loc : Coordinates) (opts : NearestSearchOptions)
    (rs : List NearestCentroResult)
    (h : rankByDistance K centros loc opts = .ok rs) :
    (opts.limit.getD DEFAULT_LIMIT = 0 → rs = []) ∧
    (opts.limit.getD DEFAULT_LIMIT < 0 →
      rs.length = ((centros.countP (passesFilters K loc opts) : Int) +
        opts.limit.getD DEFAULT_LIMIT).toNat) := by
  obtain ⟨-, hrs⟩ := rankByDistance_ok_inv h
  subst hrs
  constructor
  · intro h0
    rw [h0]
    simp [jsSliceTo]
  · intro hneg
    have hlen : (sortByDistance ((centros.map (mkResult K loc)).filter
        (resultPasses opts))).length = centros.countP (passesFilters K loc opts) := by
      rw [length_sortByDistance, ← List.countP_eq_length_filter, List.countP_map]
      exact List.countP_congr (fun c _ => by
        rw [Function.comp_apply, resultPasses_mkResult])
    rw [jsSliceTo, if_pos hneg, List.length_take, hlen]
    omega

/-- Witness for C4 (amended): limit = -1 over two passing facilities returns
exactly one result. -/
theorem c4_witness :
    rankByDistance K1 [centroA, centroB] loc0 ⟨some (-1), none, none, none⟩ =
      .ok [resA] ∧
    (⟨some (-1), none, none, none⟩ : NearestSearchOptions).limit.getD DEFAULT_LIMIT < 0 ∧
    ([resA] : List NearestCentroResult).length =
      (([centroA, centroB].countP
          (passesFilters K1 loc0 ⟨some (-1), none, none, none⟩) : Int) +
        (⟨some (-1), none, none, none⟩ : NearestSearchOptions).limit.getD
          DEFAULT_LIMIT).toNat :=
  ⟨rank_eval_negLimit, by norm_num [Option.getD],
    (c4_zero_and_negative_limit K1 [centroA, centroB] loc0
      ⟨some (-1), none, none, none⟩ [resA] rank_eval_negLimit).2
      (by norm_num [Option.getD])⟩

/-- C10: tie-break is input-order stable.  Whenever two results returned by
`rankByDistance` have exactly equal `distanceKm`, they originate from two
facilities appearing in that same relative order in the input list (the
facilities form a two-element sublist of the input). -/
theorem c10_tie_break_stable (K : MathKernel) (centros : List Centro)
    (loc : Coordinates) (opts : NearestSearchOptions)
    (rs : List NearestCentroResult)
    (h : rankByDistance K centros loc opts = .ok rs)
    (i j : ℕ) (hi : i < rs.length) (hj : j < rs.length) (hij : i < j)
    (hd : (rs.get ⟨i, hi⟩).distanceKm = (rs.get ⟨j, hj⟩).distanceKm) :
    ∃ c1 c2, ([c1, c2] : List Centro).Sublist centros ∧
      calculateCentroDistance K c1 loc = .ok (rs.get ⟨i, hi⟩) ∧
      calculateCentroDistance K c2 loc = .ok (rs.get ⟨j, hj⟩) := by
  obtain ⟨hm, hrs⟩ := rankByDistance_ok_inv h
  set a := rs.get ⟨i, hi⟩ with ha
  set b := rs.get ⟨j, hj⟩ with hb
  set C := (centros.map (mkResult K loc)).filter (resultPasses opts) with hC
  set p : NearestCentroResult → Bool := fun r => r.distanceKm == a.distanceKm with hp
  have hpa : p a = true := beq_self_eq_true a.distanceKm
  have hpb : p b = true := beq_iff_eq.mpr hd.symm
  have hpair : ([a, b] : List NearestCentroResult).Sublist rs :=
    pair_get_sublist rs i j hi hj hij
  have hfeq : List.filter p [a, b] = [a, b] := List.filter_eq_self.mpr (by
    intro x hx
    rcases List.mem_cons.mp hx with rfl | hx'
    · exact hpa
    · rcases List.mem_cons.mp hx' with rfl | hx''
      · exact hpb
      · cases hx'')
  have h1 : ([a, b] : List NearestCentroResult).Sublist (rs.filter p) :=
    hfeq ▸ List.Sublist.filter p hpair
  have hslice : rs.Sublist (sortByDistance C) := by
    have := jsSliceTo_sublist (sortByDistance C) (opts.limit.getD DEFAULT_LIMIT)
    rwa [← hrs] at this
  have h2 : (rs.filter p).Sublist ((sortByDistance C).filter p) :=
    List.Sublist.filter p hslice
  have h3 : (sortByDistance C).filter p = C.filter p := by
    refine sortByDistance_filter_const ?_
    intro x hx y hy
    have hx' : x.distanceKm = a.distanceKm := beq_iff_eq.mp hx
    have hy' : y.distanceKm = a.distanceKm := beq_iff_eq.mp hy
    exact le_of_eq (hx'.trans hy'.symm)
  have hfin : ([a, b] : List NearestCentroResult).Sublist
      (centros.map (mkResult K loc)) :=
    ((h3 ▸ (h1.trans h2)).trans (List.filter_sublist C)).trans
      (List.filter_sublist (centros.map (mkResult K loc)))
  obtain ⟨l', hl', hmap⟩ := List.sublist_map_iff.mp hfin
  cases l' with
  | nil => simp at hmap
  | cons c1 t =>
    cases t with
    | nil => simp at hmap
    | cons c2 t2 =>
      cases t2 with
      | cons c3 t3 => simp at hmap
      | nil =>
        simp only [List.map_cons, List.map_nil] at hmap
        injection hmap with hfa htail
        injection htail with hfb htail2
        refine ⟨c1, c2, hl', ?_, ?_⟩
        · have hc1 : c1 ∈ centros := hl'.subset (by simp)
          rw [hfa]
          exact mapDistances_calc_of_ok hm c1 hc1
        · have hc2 : c2 ∈ centros := hl'.subset (by simp)
          rw [hfb]
          exact mapDistances_calc_of_ok hm c2 hc2

/-- Witness for C10: under the degenerate kernel `K0` both sample facilities
are at distance 0; they appear in the output in input order. -/
theorem c10_witness :
    rankByDistance K0 [centroA, centroB] loc0 ⟨none, none, none, none⟩ =
      .ok [⟨centroA, 0, "0 m"⟩, ⟨centroB, 0, "0 m"⟩] ∧
    ∃ c1 c2, ([c1, c2] : List Centro).Sublist [centroA, centroB] ∧
      calculateCentroDistance K0 c1 loc0 =
        .ok (([⟨centroA, 0, "0 m"⟩, ⟨centroB, 0, "0 m"⟩] :
          List NearestCentroResult).get ⟨0, by decide⟩) ∧
      calculateCentroDistance K0 c2 loc0 =
        .ok (([⟨centroA, 0, "0 m"⟩, ⟨centroB, 0, "0 m"⟩] :
          List NearestCentroResult).get ⟨1, by decide⟩) := by
  have hrank : rankByDistance K0 [centroA, centroB] loc0 ⟨none, none, none, none⟩ =
      .ok [⟨centroA, 0, "0 m"⟩, ⟨centroB, 0, "0 m"⟩] := by
    simp only [rankByDistance, mapDistances, calculateCentroDistance, haversineDistance,
      haversineRaw, isValidCoordinates, jsStrictEqNum, qv, toRadians, sortByDistance,
      filterByUf, filterByTipoSoro, filterByRadius, jsSliceTo, formatDistance, jsRound,
      jsToFixed1, K0, loc0, centroA, centroB, DEFAULT_LIMIT, EARTH_RADIUS_KM,
      List.insertionSort, List.orderedInsert, Option.getD, List.take, Int.toNat_ofNat]
    norm_num [leDist]
    all_goals rfl
  exact ⟨hrank,
    c10_tie_break_stable K0 [centroA, centroB] loc0 ⟨none, none, none, none⟩
      [⟨centroA, 0, "0 m"⟩, ⟨centroB, 0, "0 m"⟩] hrank 0 1
      (by decide) (by decide) (by decide) rfl⟩

lemma rank_eval_radius :
    rankByDistance K1 [centroA] loc0 ⟨none, some 1, none, none⟩ = .ok [] := by
  simp only [rankByDistance, mapDistances, calculateCentroDistance, haversineDistance,
    haversineRaw, isValidCoordinates, jsStrictEqNum, qv, toRadians, sortByDistance,
    filterByUf, filterByTipoSoro, filterByRadius, jsSliceTo, formatDistance, jsRound,
    jsToFixed1, K1, loc0, centroA, DEFAULT_LIMIT, EARTH_RADIUS_KM,
    List.insertionSort, List.orderedInsert, Option.getD, List.take, Int.toNat_ofNat]
  norm_num [leDist]

/-- C1: behaviour of the orchestrator's failure taxonomy.  An absent (null or
undefined) collection throws a TypeError in the initial logging statement
before the NoData guard can run — the claim's "absent collection yields
NoData" is therefore wrong on the code; an invalid origin is classified as
InvalidLocation first (even when the collection is also empty), an empty
collection as NoData, and every valid origin with a non-empty all-valid
collection yields a success outcome, which may carry an empty result list
(a tight maxRadiusKm), not a failure. -/
theorem c1_outcome_taxonomy (K : MathKernel) (cs : List Centro)
    (loc : Coordinates) (opts : NearestSearchOptions) :
    (getNearestCentros K none loc opts = .error absentCentrosTypeErrorMsg) ∧
    (isValidCoordinates loc = false →
      getNearestCentros K (some cs) loc opts = .ok (.failure invalidLocationMsg)) ∧
    (isValidCoordinates loc = true →
      getNearestCentros K (some []) loc opts = .ok (.failure noDataMsg)) ∧
    (isValidCoordinates loc = true → cs ≠ [] →
      (∀ c ∈ cs, isValidCoordinates ⟨c.latitude, c.longitude⟩ = true) →
      ∃ results, getNearestCentros K (some cs) loc opts = .ok (.success results)) ∧
    (getNearestCentros K1 (some [centroA]) loc0 ⟨none, some 1, none, none⟩ =
      .ok (.success [])) := by
  refine ⟨rfl, fun hv => ?_, fun hv => ?_, fun hv hne hval => ?_, ?_⟩
  · simp [getNearestCentros, hv]
  · simp [getNearestCentros, hv]
  · refine ⟨jsSliceTo (sortByDistance
      ((cs.map (mkResult K loc)).filter (resultPasses opts)))
      (opts.limit.getD DEFAULT_LIMIT), ?_⟩
    have hz : ¬cs.length = 0 := by
      simpa [List.length_eq_zero] using hne
    simp [getNearestCentros, hv, hz, rankByDistance_ok_of_valid K opts hv hval]
  · have hloc : isValidCoordinates loc0 = true := by decide
    have hz : ¬([centroA] : List Centro).length = 0 := by simp
    simp [getNearestCentros, hloc, hz, rank_eval_radius]

/-- Witness for C1: the TypeError on an absent collection, InvalidLocation
for origin (200, 0) (also with an empty collection), NoData for an empty
collection with a valid origin, and a success outcome for a valid search. -/
theorem c1_witness :
    getNearestCentros K1 none loc0 ⟨none, none, none, none⟩ =
      .error absentCentrosTypeErrorMsg ∧
    isValidCoordinates ⟨some 200, some 0⟩ = false ∧
    getNearestCentros K1 (some []) ⟨some 200, some 0⟩ ⟨none, none, none, none⟩ =
      .ok (.failure invalidLocationMsg) ∧
    getNearestCentros K1 (some []) loc0 ⟨none, none, none, none⟩ =
      .ok (.failure noDataMsg) ∧
    (∃ results, getNearestCentros K1 (some [centroA]) loc0 ⟨none, none, none, none⟩ =
      .ok (.success results)) :=
  ⟨(c1_outcome_taxonomy K1 [] loc0 ⟨none, none, none, none⟩).1,
    by decide,
    (c1_outcome_taxonomy K1 [] ⟨some 200, some 0⟩ ⟨none, none, none, none⟩).2.1
      (by decide),
    (c1_outcome_taxonomy K1 [] loc0 ⟨none, none, none, none⟩).2.2.1 (by decide),
    (c1_outcome_taxonomy K1 [centroA] loc0 ⟨none, none, none, none⟩).2.2.2.1
      (by decide) (by simp)
      (by intro c hc; rw [List.mem_singleton] at hc; subst hc; decide)⟩

/-- C9: for every typed input (a present collection), the orchestrator
returns a well-formed outcome (never a raw fault), and when a valid origin
meets a non-empty collection containing a facility with invalid coordinates
— which makes the distance function throw inside the ranking call — the
fault is caught and surfaced as the ComputationError failure. -/
theorem c9_fault_containment (K : MathKernel) (cs : List Centro)
    (loc : Coordinates) (opts : NearestSearchOptions) :
    (∃ outcome, getNearestCentros K (some cs) loc opts = .ok outcome) ∧
    (isValidCoordinates loc = true → cs ≠ [] →
      (∃ c ∈ cs, isValidCoordinates ⟨c.latitude, c.longitude⟩ = false) →
      getNearestCentros K (some cs) loc opts = .ok (.failure computationErrorMsg)) := by
  constructor
  · by_cases hv : isValidCoordinates loc = true
    · by_cases hz : cs.length = 0
      · exact ⟨.failure noDataMsg, by simp [getNearestCentros, hv, hz]⟩
      · cases hr : rankByDistance K cs loc opts with
        | ok results =>
          exact ⟨.success results, by simp [getNearestCentros, hv, hz, hr]⟩
        | error e =>
          exact ⟨.failure computationErrorMsg, by simp [getNearestCentros, hv, hz, hr]⟩
    · have hv' : isValidCoordinates loc = false := Bool.eq_false_iff.mpr hv
      exact ⟨.failure invalidLocationMsg, by simp [getNearestCentros, hv']⟩
  · rintro hv hne ⟨c, hc, hbad⟩
    cases hr : mapDistances K loc cs with
    | ok l =>
      have hgood := mapDistances_valid_of_ok hr c hc
      rw [hbad] at hgood
      cases hgood
    | error e =>
      have hrank : rankByDistance K cs loc opts = .error e := by
        simp [rankByDistance, hr]
      have hz : ¬cs.length = 0 := by
        simpa [List.length_eq_zero] using hne
      simp [getNearestCentros, hv, hz, hrank]

/-- Witness for C9: a facility with a NaN latitude makes the distance map
throw; the orchestrator converts the fault into the ComputationError
failure outcome. -/
theorem c9_witness :
    (∃ outcome, getNearestCentros K1 (some [centroBad]) loc0
      ⟨none, none, none, none⟩ = .ok outcome) ∧
    getNearestCentros K1 (some [centroBad]) loc0 ⟨none, none, none, none⟩ =
      .ok (.failure computationErrorMsg) :=
  ⟨(c9_fault_containment K1 [centroBad] loc0 ⟨none, none, none, none⟩).1,
    (c9_fault_containment K1 [centroBad] loc0 ⟨none, none, none, none⟩).2
      (by decide) (by simp) ⟨centroBad, by simp, by decide⟩⟩
